import Mathlib

/-!
Verification development for the Radiacode manufacturing webhook server
(`webhook_server.py`) and its sale-side barcode validator (`scripts/sale.py`).

The Python code is shallowly embedded: dictionaries decoded from JSON become
the `Json` inductive, Python string operations become explicit functions over
`List Char`, wall-clock timestamps become natural numbers counting
microseconds, and the `json.loads` library call becomes an explicit oracle
parameter `parse : String → Option Json` (`none` models a raised
`JSONDecodeError`/`ValueError`).  Paths on which the Python code raises an
exception that is only caught by the outermost `except` handler of the HTTP
endpoint are modelled by `Except.error` / a generic 500 response.
-/

namespace Webhook

/-- JSON values, the possible results of a `json.loads` call.  Numbers are
modelled as integers; none of the payload shapes this server distinguishes
depend on fractional numbers. -/
inductive Json where
  | null
  | bool (b : Bool)
  | num (n : Int)
  | str (s : String)
  | arr (elems : List Json)
  | obj (fields : List (String × Json))

/-- Python truthiness (`if payload_json:`) for decoded JSON values:
`None`, `False`, `0`, `''`, `[]` and `{}` are falsy. -/
def pyTruthy : Json → Bool
  | Json.null => false
  | Json.bool b => b
  | Json.num n => n != 0
  | Json.str s => s != ""
  | Json.arr l => !l.isEmpty
  | Json.obj l => !l.isEmpty

mutual

/-- Python `repr` of a decoded JSON value (used inside f-string log/return
messages).  Faithful for values whose strings contain no quote or escape
characters, which is the only place the server interpolates them. -/
def pyRepr : Json → String
  | Json.null => "None"
  | Json.bool true => "True"
  | Json.bool false => "False"
  | Json.num n => toString n
  | Json.str s => "'" ++ s ++ "'"
  | Json.arr l => "[" ++ String.intercalate ", " (pyReprElems l) ++ "]"
  | Json.obj l => "\x7b" ++ String.intercalate ", " (pyReprFields l) ++ "\x7d"

/-- Renders the elements of a JSON array for `pyRepr`. -/
def pyReprElems : List Json → List String
  | [] => []
  | j :: t => pyRepr j :: pyReprElems t

/-- Renders the key/value pairs of a JSON object for `pyRepr`. -/
def pyReprFields : List (String × Json) → List String
  | [] => []
  | (k, v) :: t => ("'" ++ k ++ "': " ++ pyRepr v) :: pyReprFields t

end

/-- Python `str()` of a decoded JSON value: like `repr` except a top-level
string is rendered without quotes. -/
def pyStr : Json → String
  | Json.str s => s
  | j => pyRepr j

/-- Python `type(x)` rendering, as it appears in the error messages of
`check_payload` for decoded JSON values. -/
def pyTypeName : Json → String
  | Json.null => "<class 'NoneType'>"
  | Json.bool _ => "<class 'bool'>"
  | Json.num _ => "<class 'int'>"
  | Json.str _ => "<class 'str'>"
  | Json.arr _ => "<class 'list'>"
  | Json.obj _ => "<class 'dict'>"

/-- Python substring test `needle in hay` on strings: `needle` occurs as a
contiguous substring of `hay` (the empty string occurs in everything). -/
def pyContains (hay needle : List Char) : Bool :=
  needle.isPrefixOf hay ||
    match hay with
    | [] => false
    | _ :: t => pyContains t needle

/-- Python `hay.startswith(pre)`. -/
def pyStartsWith (hay pre : List Char) : Bool :=
  pre.isPrefixOf hay

/-- Python `s.isalnum()`: non-empty and every character alphanumeric
(ASCII only; no claim involves non-ASCII alphanumerics). -/
def pyIsAlnum (l : List Char) : Bool :=
  !l.isEmpty && l.all Char.isAlphanum

/-- Python `s.strip()`: remove leading and trailing whitespace. -/
def pyStrip (l : List Char) : List Char :=
  ((l.dropWhile Char.isWhitespace).reverse.dropWhile Char.isWhitespace).reverse

/-- Embeds `clean_control_characters` (webhook_server.py:101): drop every character
with code point below 32 except newline, carriage return and tab. -/
def clean_control_characters (s : List Char) : List Char :=
  s.filter (fun c => 32 ≤ c.toNat || c = '\n' || c = '\r' || c = '\t')

/-- Python `s.split(sep)` for a one-character separator: split on every
occurrence, keeping empty parts (`''.split('-') = ['']`,
`'a--b'.split('-') = ['a','','b']`). -/
def pySplit (sep : Char) : List Char → List (List Char)
  | [] => [[]]
  | c :: rest =>
    match pySplit sep rest with
    | [] => [[]]
    | h :: t => if c = sep then [] :: h :: t else (c :: h) :: t

/-- Join a list of parts with a one-character separator; the left inverse of
`pySplit` used to reason about it. -/
def joinSep (sep : Char) : List (List Char) → List Char
  | [] => []
  | [p] => p
  | p :: q :: rest => p ++ sep :: joinSep sep (q :: rest)

/-- Python `repr` of a list of strings, as interpolated into the
`incorrect parts {parts}` messages (faithful for quote-free parts). -/
def pyReprStrList (parts : List (List Char)) : String :=
  "[" ++ String.intercalate ", " (parts.map (fun p => "'" ++ String.mk p ++ "'")) ++ "]"

/-- The `OrderTrackingManager.cleanup_timeout` constant (webhook_server.py:34): 10 seconds. -/
def cleanup_timeout : Nat := 10

/-- Python `timedelta.seconds` of a non-negative timedelta given in
microseconds: the whole-second remainder after removing whole days.  This is
what `(datetime.now() - timestamp).seconds` computes at
webhook_server.py:54 and webhook_server.py:92. -/
def pyTdSeconds (us : Nat) : Nat :=
  us / 1000000 % 86400

/-- One entry of `OrderTrackingManager.pending_orders`
(webhook_server.py:33): order type string, registration timestamp
(microseconds), and the registering payload. -/
structure OrderInfo where
  type : String
  timestamp : Nat
  order_data : Json

/-- The `OrderTrackingManager` state: its `pending_orders` dict, keyed by
device id.  The association list holds at most one binding per key (every
update first filters the key out), so it denotes the Python dict exactly;
dict iteration order is not modelled, as no behaviour depends on it. -/
structure TrackingState where
  pending_orders : List (String × OrderInfo)

/-- Embeds `OrderTrackingManager.register_order` (webhook_server.py:36): insert or
overwrite the pending entry for `device_id` with the current timestamp. -/
def register_order (now : Nat) (st : TrackingState) (device_id : String)
    (order_type : String) (order_data : Json) : TrackingState :=
  ⟨(device_id, ⟨order_type, now, order_data⟩) ::
    st.pending_orders.filter (fun p => p.1 != device_id)⟩

/-- Extract `tracking_data.get('msg', '')` when `tracking_data` is a dict.
Returns the pair (string value of a string `msg` or default, raw value). -/
def msgValue (fields : List (String × Json)) : Json :=
  (List.lookup "msg" fields).getD (Json.str "")

/-- The body of `OrderTrackingManager.process_tracking_code` after the
entry has been popped (webhook_server.py:53-73): the timeout check followed
by the per-order-type extraction.  `Except.error ()` models an exception the
Python code would raise out of the method (`tracking_data` not a dict, or a
non-string `msg` hitting `len`/slicing in the FedEx branch), to be caught by
the endpoint's outermost handler.  The outcome only reads the popped entry,
never the registry, so it is factored out of the state update. -/
def resolveOutcome (now : Nat) (info : OrderInfo) (tracking_data : Json) :
    Except Unit (Bool × String) :=
  if pyTdSeconds (now - info.timestamp) > cleanup_timeout then
    Except.ok (false, "Tracking code timeout")
  else
    match tracking_data with
    | Json.obj fields =>
      if info.type = "fedex_warehouse" || info.type = "non_fedex_warehouse" then
        match msgValue fields with
        | Json.str m =>
          let order_number :=
            if 12 ≤ m.length then String.mk (m.data.drop (m.length - 12)) else m
          Except.ok (true,
            "Order number " ++ order_number ++ " saved for " ++ info.type)
        | _ => Except.error ()
      else if info.type = "ups_code" then
        Except.ok (true,
          "UPS tracking number " ++ pyStr (msgValue fields) ++ " saved")
      else
        Except.ok (false, "Unknown order type")
    | _ => Except.error ()

/-- Embeds `OrderTrackingManager.process_tracking_code` (webhook_server.py:45): if
no entry is pending for the device, fail; otherwise pop the entry
unconditionally and compute the outcome from it.  `now` is the current time
in microseconds. -/
def process_tracking_code (now : Nat) (st : TrackingState) (device_id : String)
    (tracking_data : Json) : TrackingState × Except Unit (Bool × String) :=
  match List.lookup device_id st.pending_orders with
  | none => (st, Except.ok (false, "No pending order for this device"))
  | some info =>
    (⟨st.pending_orders.filter (fun p => p.1 != device_id)⟩,
      resolveOutcome now info tracking_data)

/-- Embeds `OrderTrackingManager.cleanup_expired` (webhook_server.py:87): delete
every entry whose `timedelta.seconds` age exceeds the timeout. -/
def cleanup_expired (now : Nat) (st : TrackingState) : TrackingState :=
  ⟨st.pending_orders.filter
    (fun p => !(pyTdSeconds (now - p.2.timestamp) > cleanup_timeout))⟩

/-- The status strings returned by `check_payload`. -/
inductive Status where
  | incorrect_format
  | ups_code
  | valid_rc_format
  | invalid_rc_format
  | fedex_warehouse
  | non_fedex_warehouse
  | tracking_code
  deriving DecidableEq

/-- The `len(parts) == 3 and len(parts[1]) == 3 and len(parts[2]) == 6 and
parts[1].isalnum() and parts[2].isalnum()` test used at
webhook_server.py:150 and webhook_server.py:186. -/
def rcShapeOk (parts : List (List Char)) : Bool :=
  match parts with
  | [_, p1, p2] => p1.length == 3 && p2.length == 6 && pyIsAlnum p1 && pyIsAlnum p2
  | _ => false

/-- Evaluates `payload_json.get('msg', '')` for a decoded dict, then the uses the
classifier makes of it: `some m` when the value is a string (or absent,
defaulting to `''`); `none` when a non-string value is present, in which
case `'37040' in payload_msg` / `len(payload_msg)` raises `TypeError`,
caught by the classifier's outermost handler. -/
def msgStringOf (fields : List (String × Json)) : Option String :=
  match List.lookup "msg" fields with
  | none => some ""
  | some (Json.str s) => some s
  | some _ => none

/-- Embeds `check_payload` (webhook_server.py:110).  `parse` is the `json.loads`
oracle, `pendingIds` the key set of `tracking_manager.pending_orders`
consulted at webhook_server.py:206, `payload` the value of
`data.get('payload', '{}')` (the non-string case is the `isinstance`
rejection at webhook_server.py:119). -/
def check_payload (parse : String → Option Json) (pendingIds : List String)
    (payload : Json) : Status × Option Json × String :=
  match payload with
  | Json.str payload_str =>
    if payload_str = "" then
      (Status.incorrect_format, none, "Empty payload")
    else
      let cl := clean_control_characters payload_str.data
      let cleaned := String.mk cl
      if pyContains cl ("37040".data) then
        match parse cleaned with
        | some j => (Status.ups_code, some j, "UPS code detected")
        | none => (Status.ups_code, none, "UPS code detected: " ++ cleaned)
      else if cl.length == 39 && pyStartsWith cl ("RC-".data) then
        let parts := pySplit '-' cl
        if rcShapeOk parts then
          match parse cleaned with
          | some j => (Status.valid_rc_format, some j, "Valid RC-xxx-xxxxxx format")
          | none =>
            (Status.valid_rc_format, none,
              "Valid RC-xxx-xxxxxx format but not JSON: " ++ cleaned)
        else
          (Status.invalid_rc_format, none,
            "Invalid RC-xxx-xxxxxx format: incorrect parts " ++ pyReprStrList parts)
      else
        match parse cleaned with
        | none => (Status.incorrect_format, none, "Incorrect JSON format")
        | some (Json.obj fields) =>
          match msgStringOf fields with
          | none => (Status.incorrect_format, none, "Unexpected error")
          | some m =>
            let md := m.data
            if pyContains md ("37040".data) then
              (Status.ups_code, some (Json.obj fields), "UPS code detected in msg")
            else if md.length == 13 && pyStartsWith md ("RC-".data) then
              let parts := pySplit '-' md
              if rcShapeOk parts then
                (Status.valid_rc_format, some (Json.obj fields),
                  "Valid RC-xxx-xxxxxx format in msg")
              else
                (Status.incorrect_format, none,
                  "Invalid RC-xxx-xxxxxx format in msg: incorrect parts " ++
                    pyReprStrList parts)
            else if pyContains md ("FBA".data) &&
                pyContains md ("Coventry, West Midlands".data) &&
                pyContains md ("Lyons Park".data) then
              (Status.fedex_warehouse, some (Json.obj fields), "FedEx warehouse order")
            else if 50 < md.length then
              (Status.non_fedex_warehouse, some (Json.obj fields),
                "Non-FedEx warehouse order")
            else
              match List.lookup "id" fields with
              | some (Json.str did) =>
                if did != "" && pendingIds.contains did then
                  (Status.tracking_code, some (Json.obj fields),
                    "Potential tracking code for pending order")
                else
                  (Status.incorrect_format, none,
                    "Incorrect format: msg too short or invalid")
              | _ =>
                (Status.incorrect_format, none,
                  "Incorrect format: msg too short or invalid")
        | some j =>
          (Status.incorrect_format, none,
            "Invalid JSON format: expected dict, got " ++ pyTypeName j)
  | other =>
    (Status.incorrect_format, none,
      "Invalid payload type: expected str, got " ++ pyTypeName other)

/-- The config entry `MANUFACTURING_CONFIG['ALLOWED_TOPICS']` (webhook_server.py:18). -/
def ALLOWED_TOPICS : List String := ["production/ready", "sale/ready"]

/-- The config entry `MANUFACTURING_CONFIG['TOPIC_VALIDATION_ENABLED']` (webhook_server.py:22). -/
def TOPIC_VALIDATION_ENABLED : Bool := true

/-- The config entry `MANUFACTURING_CONFIG['MIN_BARCODE_LENGTH']` (webhook_server.py:24);
the `BARCODE_PREFIX` entry `'RC-'` is inlined where used. -/
def MIN_BARCODE_LENGTH : Nat := 10

/-- The topic test of webhook_server.py:250-253: the topic equals an allowed
topic or starts with one. -/
def topic_allowed (topic : String) : Bool :=
  ALLOWED_TOPICS.any (fun a => topic == a || pyStartsWith topic.data a.data)

/-- An HTTP response as produced by `jsonify(...), code`. -/
structure HttpResponse where
  code : Nat
  body : Json

/-- A write invoked on the persistence collaborator (`RadiacodeManager`):
`WriteManufacturingDate` or `WriteSaleDate` with the given serial.  The
`save_order_number` / `save_tracking_number` methods of the tracking manager
only log (their persistence calls are commented out in the source), so they
record nothing here. -/
inductive PersistCall where
  | manufacturing (serial : String)
  | sale (serial : String)
  deriving DecidableEq

/-- The environment a single request runs in: the `json.loads` oracle, the
persistence collaborator's success oracles, the current time in microseconds
and its `isoformat()` rendering. -/
structure Env where
  parse : String → Option Json
  writeManufacturingDate : String → Bool
  writeSaleDate : String → Bool
  now : Nat
  nowIso : String

/-- The 500 answer of the outermost `except Exception` handler
(webhook_server.py:436); the interpolated exception text is not modelled. -/
def serverError : HttpResponse :=
  ⟨500, Json.obj [("error", Json.str "Server error")]⟩

/-- The 403 answer for a disallowed topic (webhook_server.py:257). -/
def unauthorizedResponse (topic : String) : HttpResponse :=
  ⟨403, Json.obj [("error", Json.str "Unauthorized topic"),
    ("topic", Json.str topic),
    ("allowed_topics", Json.arr (ALLOWED_TOPICS.map Json.str))]⟩

/-- The `{'status': 'success', ...}, 200` answer after a tracking-code
resolution (webhook_server.py:355). -/
def resolveOkResponse (message device_id : String) : HttpResponse :=
  ⟨200, Json.obj [("status", Json.str "success"), ("message", Json.str message),
    ("device_id", Json.str device_id)]⟩

/-- The `{'status': 'error', ...}, 400` answer after a failed tracking-code
resolution (webhook_server.py:361). -/
def resolveErrResponse (message device_id : String) : HttpResponse :=
  ⟨400, Json.obj [("status", Json.str "error"), ("message", Json.str message),
    ("device_id", Json.str device_id)]⟩

/-- The `{'status': 'pending', ...}, 200` answer after registering a pending
order (webhook_server.py:330, 341, 370). -/
def pendingResponse (message device_id : String) : HttpResponse :=
  ⟨200, Json.obj [("status", Json.str "pending"), ("message", Json.str message),
    ("device_id", Json.str device_id),
    ("timeout_seconds", Json.num (Int.ofNat cleanup_timeout))]⟩

/-- Evaluates `payload_json.get('id', '') if payload_json else ''`
(webhook_server.py:327, 349, 379).  `Except.error ()` models the
`AttributeError` raised by `.get` on a truthy non-dict (caught by the
outermost handler as a 500).  A present non-string `id` value is modelled as
`''`: in Python it would flow on as a non-string key, but the pending
registry is only ever keyed by the string ids of the payload shapes this
server handles, so such a value never matches a pending entry. -/
def pyGetId : Option Json → Except Unit String
  | none => Except.ok ""
  | some j =>
    if pyTruthy j then
      match j with
      | Json.obj fields =>
        Except.ok (match List.lookup "id" fields with
          | some (Json.str s) => s
          | _ => "")
      | _ => Except.error ()
    else
      Except.ok ""

/-- The resolution attempt shared by the `ups_code`, `tracking_code` and
`incorrect_format` dispatch branches: run `process_tracking_code` and turn
its outcome into a response (webhook_server.py:353-365). -/
def resolveAndRespond (env : Env) (st : TrackingState) (device_id : String)
    (tracking_data : Json) : HttpResponse × TrackingState × List PersistCall :=
  let r := process_tracking_code env.now st device_id tracking_data
  match r.2 with
  | Except.error _ => (serverError, r.1, [])
  | Except.ok (true, m) => (resolveOkResponse m device_id, r.1, [])
  | Except.ok (false, m) => (resolveErrResponse m device_id, r.1, [])

/-- The `match status:` dispatch of `handle_device_scan`
(webhook_server.py:272-431), applied after topic validation and the expiry
sweep.  `st` is the swept state, `payload` the value of
`data.get('payload', '{}')`, and `r` the `check_payload` result. -/
def dispatchStatus (env : Env) (st : TrackingState) (topic : String)
    (payload : Json) (r : Status × Option Json × String) :
    HttpResponse × TrackingState × List PersistCall :=
  match r.1 with
  | Status.valid_rc_format =>
    -- webhook_server.py:274 re-parses the *raw* payload string; a failure
    -- here is caught by the `except json.JSONDecodeError` handler (400).
    match payload with
    | Json.str payload_str =>
      match env.parse payload_str with
      | none => (⟨400, Json.obj [("error", Json.str "Invalid JSON payload")]⟩, st, [])
      | some (Json.obj pfields) =>
        match msgStringOf pfields with
        | none => (serverError, st, [])  -- non-string msg: `.strip()` raises
        | some m =>
          let barcode := String.mk (pyStrip m.data)
          if barcode = "" then
            (⟨400, Json.obj [("error", Json.str "Barcode is required")]⟩, st, [])
          else if !(pyStartsWith barcode.data ("RC-".data)) ||
              barcode.length < MIN_BARCODE_LENGTH then
            (⟨400, Json.obj [("error", Json.str
              "Invalid barcode format. Expected format: RC-XXXXXXXXX (min 10 chars)")]⟩,
              st, [])
          else if topic = "production/ready" then
            let ok := env.writeManufacturingDate barcode
            if ok then
              (⟨200, Json.obj [("status", Json.str "success"),
                ("barcode", Json.str barcode), ("topic", Json.str topic),
                ("operation", Json.str "manufacturing"),
                ("manufacturing_date", Json.str env.nowIso),
                ("message", Json.str "Manufacturing date recorded successfully")]⟩,
                st, [PersistCall.manufacturing barcode])
            else
              (⟨500, Json.obj [("error", Json.str "Failed to record manufacturing date")]⟩,
                st, [PersistCall.manufacturing barcode])
          else if topic = "sale/ready" then
            let ok := env.writeSaleDate barcode
            if ok then
              (⟨200, Json.obj [("status", Json.str "success"),
                ("barcode", Json.str barcode), ("topic", Json.str topic),
                ("operation", Json.str "sale"),
                ("sale_date", Json.str env.nowIso),
                ("message", Json.str "Sale date recorded successfully")]⟩,
                st, [PersistCall.sale barcode])
            else
              (⟨500, Json.obj [("error", Json.str "Failed to record sale date")]⟩,
                st, [PersistCall.sale barcode])
          else
            (⟨500, Json.obj [("error", Json.str "Unknown topic")]⟩, st, [])
      | some _ => (serverError, st, [])  -- `.get` on a non-dict raises
    | _ => (serverError, st, [])  -- `json.loads` of a non-string raises TypeError
  | Status.fedex_warehouse =>
    match pyGetId r.2.1 with
    | Except.error _ => (serverError, st, [])
    | Except.ok device_id =>
      (pendingResponse "FedEx warehouse order registered, waiting for tracking code"
          device_id,
        register_order env.now st device_id "fedex_warehouse"
          ((r.2.1).getD Json.null), [])
  | Status.non_fedex_warehouse =>
    match pyGetId r.2.1 with
    | Except.error _ => (serverError, st, [])
    | Except.ok device_id =>
      (pendingResponse "Non-FedEx warehouse order registered, waiting for tracking code"
          device_id,
        register_order env.now st device_id "non_fedex_warehouse"
          ((r.2.1).getD Json.null), [])
  | Status.ups_code =>
    match pyGetId r.2.1 with
    | Except.error _ => (serverError, st, [])
    | Except.ok device_id =>
      match List.lookup device_id st.pending_orders with
      | some _ => resolveAndRespond env st device_id ((r.2.1).getD Json.null)
      | none =>
        (pendingResponse "UPS code registered, waiting for additional data" device_id,
          register_order env.now st device_id "ups_code" ((r.2.1).getD Json.null), [])
  | Status.tracking_code =>
    match pyGetId r.2.1 with
    | Except.error _ => (serverError, st, [])
    | Except.ok device_id =>
      if device_id != "" && (List.lookup device_id st.pending_orders).isSome then
        resolveAndRespond env st device_id ((r.2.1).getD Json.null)
      else
        (⟨400, Json.obj [("status", Json.str "error"),
          ("message", Json.str "No pending order found for tracking code"),
          ("device_id", Json.str device_id)]⟩, st, [])
  | Status.incorrect_format =>
    -- webhook_server.py:404: recovery attempt when the body is a truthy dict
    -- (dead in practice, since every incorrect_format result carries None).
    match r.2.1 with
    | some (Json.obj pfields) =>
      if pyTruthy (Json.obj pfields) then
        let device_id := (match List.lookup "id" pfields with
          | some (Json.str s) => s
          | _ => "")
        if device_id != "" && (List.lookup device_id st.pending_orders).isSome then
          resolveAndRespond env st device_id (Json.obj pfields)
        else
          (⟨400, Json.obj [("error", Json.str "Invalid payload format"),
            ("details", Json.str r.2.2)]⟩, st, [])
      else
        (⟨400, Json.obj [("error", Json.str "Invalid payload format"),
          ("details", Json.str r.2.2)]⟩, st, [])
    | _ =>
      (⟨400, Json.obj [("error", Json.str "Invalid payload format"),
        ("details", Json.str r.2.2)]⟩, st, [])
  | Status.invalid_rc_format =>
    (⟨400, Json.obj [("error", Json.str "Invalid RC-xxx-xxxxxx format"),
      ("details", Json.str r.2.2)]⟩, st, [])

/-- Evaluates `data.get('topic', '')` followed by its uses: `some topic` when the field
is a string or absent (default `''`); `none` when a non-string value is
present, in which case `topic.startswith(...)` raises `AttributeError`
(caught by the outermost handler as a 500, topic validation being enabled). -/
def topicStringOf (fields : List (String × Json)) : Option String :=
  match List.lookup "topic" fields with
  | none => some ""
  | some (Json.str s) => some s
  | some _ => none

/-- Embeds `handle_device_scan` (webhook_server.py:234): topic authorization, expiry
sweep, payload classification and the status dispatch.  Returns the response,
the tracking state after the request, and the persistence writes invoked. -/
def handle_device_scan (env : Env) (st : TrackingState) (data : Json) :
    HttpResponse × TrackingState × List PersistCall :=
  match data with
  | Json.obj dfields =>
    match topicStringOf dfields with
    | none => (serverError, st, [])
    | some topic =>
      if TOPIC_VALIDATION_ENABLED && !topic_allowed topic then
        (unauthorizedResponse topic, st, [])
      else
        let payload := (List.lookup "payload" dfields).getD (Json.str "\x7b\x7d")
        let st1 := cleanup_expired env.now st
        dispatchStatus env st1 topic payload
          (check_payload env.parse (st1.pending_orders.map Prod.fst) payload)
  | _ => (serverError, st, [])  -- `data.get` on a non-dict raises

end Webhook

namespace Sale

open Webhook (pyStartsWith pyStrip)

/-- One entry of `BarcodeValidator.rules` (scripts/sale.py:32): display name,
compiled pattern (as a predicate, see the individual pattern definitions),
extractor (`none` models an exception inside the lambda, which `validate`
catches and treats as a non-match), and the length bounds. -/
structure BarcodeRule where
  name : String
  pattern : String → Bool
  extractor : String → Option String
  min_length : Nat
  max_length : Option Nat

/-- The regex `^634240\d{6}$` of the `Acccesory` rule: the literal digits
`634240` followed by exactly six digits (ASCII digits; the claims involve no
non-ASCII digit strings). -/
def accessoryPattern (s : String) : Bool :=
  s.length == 12 && pyStartsWith s.data ("634240".data) &&
    (s.data.drop 6).all Char.isDigit

/-- The regex `^RC-\d{3}-\d{6}$` of the `RC` rule. -/
def rcPattern (s : String) : Bool :=
  s.length == 13 && pyStartsWith s.data ("RC-".data) &&
    ((s.data.drop 3).take 3).all Char.isDigit &&
    ((s.data.drop 6).take 1 == ['-']) &&
    (s.data.drop 7).all Char.isDigit

/-- The regex `^FBA.+U.+$` of the 19-character `Amazon` rule: prefix `FBA`,
then at least one character, a `U`, and at least one trailing character
(the regex-`.`-versus-newline subtlety is not modelled; this rule is not
involved in any claim). -/
def amazonPattern (s : String) : Bool :=
  pyStartsWith s.data ("FBA".data) && ((s.data.drop 4).dropLast).contains 'U'

/-- Extractor of the 19-character `Amazon` rule:
`"FBA" + bc[3:bc.index('U')]`; `bc.index` raises `ValueError` when no `U`
occurs (modelled as `none`). -/
def amazonExtract (bc : String) : Option String :=
  if bc.data.contains 'U' then
    some ("FBA" ++ String.mk ((bc.data.drop 3).takeWhile (fun c => c != 'U')))
  else
    none

/-- The regex `^\d{34}$` of the `Shopify` rule. -/
def shopifyPattern (s : String) : Bool :=
  s.length == 34 && s.data.all Char.isDigit

/-- Extractor of the `Shopify` rule: `bc[-12:]`. -/
def shopifyExtract (bc : String) : Option String :=
  some (String.mk (bc.data.drop (bc.length - 12)))

/-- The catch-all regex `.+` of the final `Amazon` rule, applied via
`re.match` to an already stripped string: any non-empty string matches. -/
def catchAllPattern (s : String) : Bool :=
  !s.isEmpty

/-- Embeds `BarcodeValidator.rules` (scripts/sale.py:33-67), in declaration order.
The first rule's name is spelled `Acccesory` in the source. -/
def rules : List BarcodeRule :=
  [⟨"Acccesory", accessoryPattern, fun bc => some bc, 12, some 12⟩,
   ⟨"RC", rcPattern, fun bc => some bc, 13, some 13⟩,
   ⟨"Amazon", amazonPattern, amazonExtract, 19, some 19⟩,
   ⟨"Shopify", shopifyPattern, shopifyExtract, 34, some 34⟩,
   ⟨"Amazon", catchAllPattern, fun bc => some bc, 10, some 12⟩]

/-- The result dict of `BarcodeValidator.validate`. -/
structure ClassificationResult where
  valid : Bool
  serial : Option String
  type : String
  original : String
  error : Option String
  deriving DecidableEq

/-- The rule loop of `BarcodeValidator.validate` (scripts/sale.py:74-89)
over an already stripped barcode `b`: the first rule whose length bounds,
pattern and extraction all succeed wins; an extraction failure falls through
to the next rule. -/
def validateFrom (b : String) : List BarcodeRule → ClassificationResult
  | [] =>
    ⟨false, none, "Unknown", b,
      some ("No matching pattern for barcode length " ++ toString b.length)⟩
  | rule :: rest =>
    if rule.min_length ≤ b.length &&
        (match rule.max_length with
          | none => true
          | some mx => b.length ≤ mx) &&
        rule.pattern b then
      match rule.extractor b with
      | some serial => ⟨true, some serial, rule.name, b, none⟩
      | none => validateFrom b rest
    else
      validateFrom b rest

/-- Embeds `BarcodeValidator.validate` (scripts/sale.py:70): strip, then try the
rules in declaration order. -/
def validate (barcode : String) : ClassificationResult :=
  validateFrom (String.mk (pyStrip barcode.data)) rules

end Sale

namespace Webhook

/-! Structural facts about `pySplit`, used to reason about the 39-character
direct RC branch of `check_payload`. -/

theorem pySplit_cons (sep c : Char) (rest : List Char) :
    pySplit sep (c :: rest) =
      match pySplit sep rest with
      | [] => [[]]
      | h :: t => if c = sep then [] :: h :: t else (c :: h) :: t := rfl

theorem pySplit_ne_nil (sep : Char) (l : List Char) : pySplit sep l ≠ [] := by
  induction l with
  | nil => simp [pySplit]
  | cons c rest ih =>
    cases h : pySplit sep rest with
    | nil => exact absurd h ih
    | cons hd tl =>
      have hred : pySplit sep (c :: rest) =
          if c = sep then [] :: hd :: tl else (c :: hd) :: tl := by
        rw [pySplit_cons, h]
      rw [hred]
      by_cases hc : c = sep <;> simp [hc]

theorem joinSep_pySplit (sep : Char) (l : List Char) :
    joinSep sep (pySplit sep l) = l := by
  induction l with
  | nil => rfl
  | cons c rest ih =>
    obtain ⟨hd, tl, h⟩ : ∃ hd tl, pySplit sep rest = hd :: tl := by
      cases h : pySplit sep rest with
      | nil => exact absurd h (pySplit_ne_nil sep rest)
      | cons hd tl => exact ⟨hd, tl, rfl⟩
    rw [h] at ih
    have hred : pySplit sep (c :: rest) =
        if c = sep then [] :: hd :: tl else (c :: hd) :: tl := by
      rw [pySplit_cons, h]
    rw [hred]
    by_cases hc : c = sep
    · rw [if_pos hc]
      subst hc
      show [] ++ c :: joinSep c (hd :: tl) = c :: rest
      rw [ih]
      rfl
    · rw [if_neg hc]
      cases tl with
      | nil =>
        show c :: hd = c :: rest
        have hhd : hd = rest := ih
        rw [hhd]
      | cons t0 ts =>
        show (c :: hd) ++ sep :: joinSep sep (t0 :: ts) = c :: rest
        rw [List.cons_append]
        rw [show hd ++ sep :: joinSep sep (t0 :: ts) = joinSep sep (hd :: t0 :: ts) from rfl,
          ih]

theorem pySplit_parts_no_sep (sep : Char) (l : List Char) :
    ∀ p ∈ pySplit sep l, sep ∉ p := by
  induction l with
  | nil =>
    intro p hp
    simp [pySplit] at hp
    simp [hp]
  | cons c rest ih =>
    obtain ⟨hd, tl, h⟩ : ∃ hd tl, pySplit sep rest = hd :: tl := by
      cases h : pySplit sep rest with
      | nil => exact absurd h (pySplit_ne_nil sep rest)
      | cons hd tl => exact ⟨hd, tl, rfl⟩
    rw [h] at ih
    intro p hp
    have hred : pySplit sep (c :: rest) =
        if c = sep then [] :: hd :: tl else (c :: hd) :: tl := by
      rw [pySplit_cons, h]
    rw [hred] at hp
    by_cases hc : c = sep
    · rw [if_pos hc] at hp
      rcases List.mem_cons.mp hp with h1 | h2
      · simp [h1]
      · exact ih p h2
    · rw [if_neg hc] at hp
      rcases List.mem_cons.mp hp with h1 | h2
      · subst h1
        intro hmem
        rcases List.mem_cons.mp hmem with h3 | h4
        · exact hc h3.symm
        · exact ih hd (List.mem_cons_self _ _) h4
      · exact ih p (List.mem_cons_of_mem _ h2)

/-- The shape test of the 39-character direct RC branch can never succeed:
three hyphen-separated parts whose second and third have lengths 3 and 6,
with the hyphen-free first part forced to length 2 by the `RC-` prefix,
yield a string of total length 13, not 39. -/
theorem rcShapeOk_len39_false (l : List Char) (hlen : l.length = 39)
    (hpre : pyStartsWith l ("RC-".data) = true) :
    rcShapeOk (pySplit '-' l) = false := by
  cases hval : rcShapeOk (pySplit '-' l) with
  | false => rfl
  | true =>
    exfalso
    have hjoin := joinSep_pySplit '-' l
    have hnosep := pySplit_parts_no_sep '-' l
    rcases hp : pySplit '-' l with _ | ⟨p0, _ | ⟨p1, _ | ⟨p2, _ | ⟨p3, t⟩⟩⟩⟩ <;>
      rw [hp] at hval <;>
      simp only [rcShapeOk, Bool.false_eq_true] at hval
    rw [hp] at hjoin hnosep
    simp only [Bool.and_eq_true, beq_iff_eq] at hval
    obtain ⟨⟨⟨h1, h2⟩, _⟩, _⟩ := hval
    simp only [joinSep] at hjoin
    have hlen0 : p0.length = 28 := by
      have hl := congrArg List.length hjoin
      simp only [List.length_append, List.length_cons, hlen, h1, h2] at hl
      omega
    have hpre' : l = 'R' :: 'C' :: '-' :: l.drop 3 := by
      have hpfx : List.IsPrefix ("RC-".data) l := by
        have hb : ("RC-".data).isPrefixOf l = true := hpre
        exact ( List.isPrefixOf_iff_prefix).mp hb
      obtain ⟨t, ht⟩ := hpfx
      rw [← ht]
      rfl
    have hp0 : p0 = l.take 28 := by
      rw [← hjoin, ← hlen0, List.take_left]
    have hdash : '-' ∈ p0 := by
      rw [hp0, hpre']
      simp [List.take_succ_cons]
    exact hnosep p0 (List.mem_cons_self _ _) hdash

/-- Popping a key from the registry really removes it: a lookup after the
filter used by `process_tracking_code` (and by `register_order`) finds
nothing. -/
theorem lookup_filter_self (dev : String) (l : List (String × OrderInfo)) :
    List.lookup dev (l.filter (fun p => p.1 != dev)) = none := by
  induction l with
  | nil => rfl
  | cons p t ih =>
    obtain ⟨k, v⟩ := p
    simp only [List.filter_cons]
    by_cases h : k = dev
    · rw [show (k != dev) = false by simp [h], if_neg Bool.false_ne_true]
      exact ih
    · rw [show (k != dev) = true by simp [h], if_pos rfl]
      rw [List.lookup_cons, show (dev == k) = false by simp [Ne.symm h]]
      exact ih

/-- A resolution attempt answers 200, 400 or 500, never 403. -/
theorem resolveAndRespond_code (env : Env) (st : TrackingState) (device_id : String)
    (td : Json) :
    (resolveAndRespond env st device_id td).1.code = 200 ∨
      (resolveAndRespond env st device_id td).1.code = 400 ∨
      (resolveAndRespond env st device_id td).1.code = 500 := by
  unfold resolveAndRespond
  cases h : (process_tracking_code env.now st device_id td).2 with
  | error e => simp [h, serverError]
  | ok p =>
    obtain ⟨b, m⟩ := p
    cases b <;> simp [h, resolveOkResponse, resolveErrResponse]

/-- Every branch of the status dispatch answers 200, 400 or 500. -/
theorem dispatchStatus_code (env : Env) (st : TrackingState) (topic : String)
    (payload : Json) (r : Status × Option Json × String) :
    (dispatchStatus env st topic payload r).1.code = 200 ∨
      (dispatchStatus env st topic payload r).1.code = 400 ∨
      (dispatchStatus env st topic payload r).1.code = 500 := by
  obtain ⟨s, pj, msg⟩ := r
  cases s with
  | valid_rc_format =>
    simp only [dispatchStatus]
    repeat' split <;> try simp [serverError]
  | fedex_warehouse =>
    simp only [dispatchStatus]
    split <;> simp [serverError, pendingResponse]
  | non_fedex_warehouse =>
    simp only [dispatchStatus]
    split <;> simp [serverError, pendingResponse]
  | ups_code =>
    simp only [dispatchStatus]
    split
    · simp [serverError]
    · split
      · exact resolveAndRespond_code _ _ _ _
      · simp [pendingResponse]
  | tracking_code =>
    simp only [dispatchStatus]
    split
    · simp [serverError]
    · split
      · exact resolveAndRespond_code _ _ _ _
      · simp
  | incorrect_format =>
    simp only [dispatchStatus]
    repeat' split <;> try first
      | exact resolveAndRespond_code _ _ _ _
      | simp
  | invalid_rc_format =>
    simp [dispatchStatus]

/-- The authorization test rejects: `handle_device_scan` answers the 403
response and leaves the registry and persistence untouched. -/
theorem handle_unauthorized (env : Env) (st : TrackingState)
    (dfields : List (String × Json)) (topic : String)
    (h : topicStringOf dfields = some topic) (h2 : topic_allowed topic = false) :
    handle_device_scan env st (Json.obj dfields) =
      (unauthorizedResponse topic, st, []) := by
  simp [handle_device_scan, h, TOPIC_VALIDATION_ENABLED, h2]

/-- The authorization test passes: `handle_device_scan` proceeds to the
sweep, the classification and the status dispatch. -/
theorem handle_authorized (env : Env) (st : TrackingState)
    (dfields : List (String × Json)) (topic : String)
    (h : topicStringOf dfields = some topic) (h2 : topic_allowed topic = true) :
    handle_device_scan env st (Json.obj dfields) =
      dispatchStatus env (cleanup_expired env.now st) topic
        ((List.lookup "payload" dfields).getD (Json.str "\x7b\x7d"))
        (check_payload env.parse
          ((cleanup_expired env.now st).pending_orders.map Prod.fst)
          ((List.lookup "payload" dfields).getD (Json.str "\x7b\x7d"))) := by
  simp [handle_device_scan, h, TOPIC_VALIDATION_ENABLED, h2]

end Webhook


namespace Webhook

/-! Claim theorems. -/

/-- Concrete state for exercising the tracking manager: one `ups_code`
order for device `dev1`, registered at time 0. -/
def stDay : TrackingState := register_order 0 ⟨[]⟩ "dev1" "ups_code" (Json.obj [])

/-- C1: the spec requires every pending entry whose age exceeds the
10-second timeout — regardless of magnitude — to be treated as absent
(resolve fails with the timeout message, and the sweep removes it).  The
code computes the age with `timedelta.seconds`, which wraps at one day: at
age 86405 s (one day and five seconds, far beyond the timeout) the resolve
SUCCEEDS and the sweep KEEPS the entry, contradicting the claim.  The same
file uses `total_seconds()` for its one-hour freshness checks, so `.seconds`
here is a slip. -/
theorem timeout_check_wraps_at_one_day :
    86405000000 > cleanup_timeout * 1000000
    ∧ (process_tracking_code 86405000000 stDay "dev1"
        (Json.obj [("msg", Json.str "1Z999")])).2 =
        Except.ok (true, "UPS tracking number 1Z999 saved")
    ∧ cleanup_expired 86405000000 stDay = stDay := by
  refine ⟨by norm_num [cleanup_timeout], rfl, rfl⟩

/-- C2: resolve has pop-once semantics.  (1) after any resolve call the
device's pending entry is gone, whatever the outcome; (2) a resolve with no
pending entry fails with the no-pending-order message; (3) after a
successful resolve, a second resolve attempt for the same device fails with
that same message (already consumed). -/
theorem resolve_pop_once (now : Nat) (st : TrackingState) (dev : String)
    (td : Json) :
    List.lookup dev (process_tracking_code now st dev td).1.pending_orders = none
    ∧ (List.lookup dev st.pending_orders = none →
        process_tracking_code now st dev td =
          (st, Except.ok (false, "No pending order for this device")))
    ∧ (∀ (now2 : Nat) (td2 : Json) (m : String),
        (process_tracking_code now st dev td).2 = Except.ok (true, m) →
        (process_tracking_code now2 (process_tracking_code now st dev td).1 dev td2).2 =
          Except.ok (false, "No pending order for this device")) := by
  have hB : ∀ (st2 : TrackingState) (n : Nat) (t : Json),
      List.lookup dev st2.pending_orders = none →
      process_tracking_code n st2 dev t =
        (st2, Except.ok (false, "No pending order for this device")) := by
    intro st2 n t h
    unfold process_tracking_code
    simp [h]
  have hA : List.lookup dev (process_tracking_code now st dev td).1.pending_orders
      = none := by
    unfold process_tracking_code
    cases h : List.lookup dev st.pending_orders with
    | none => simp [h]
    | some info =>
      simp only [h]
      exact lookup_filter_self dev st.pending_orders
  exact ⟨hA, hB st now td, fun now2 td2 m _ => by rw [hB _ now2 td2 hA]⟩

/-- Concrete follow-up payload for the pop-once witness. -/
def tdUps : Json := Json.obj [("msg", Json.str "1Z999")]

/-- Concrete one-entry state for the pop-once witness. -/
def stOnce : TrackingState := register_order 0 ⟨[]⟩ "dev1" "ups_code" (Json.obj [])

theorem resolve_pop_once_witness :
    (process_tracking_code 0 stOnce "dev1" tdUps).2 =
        Except.ok (true, "UPS tracking number 1Z999 saved")
    ∧ List.lookup "dev1" (process_tracking_code 0 stOnce "dev1" tdUps).1.pending_orders
        = none
    ∧ process_tracking_code 0 (⟨[]⟩ : TrackingState) "dev1" tdUps =
        ((⟨[]⟩ : TrackingState),
          Except.ok (false, "No pending order for this device"))
    ∧ (process_tracking_code 5 (process_tracking_code 0 stOnce "dev1" tdUps).1
        "dev1" tdUps).2 =
        Except.ok (false, "No pending order for this device") :=
  ⟨rfl, (resolve_pop_once 0 stOnce "dev1" tdUps).1,
    (resolve_pop_once 0 (⟨[]⟩ : TrackingState) "dev1" tdUps).2.1 rfl,
    (resolve_pop_once 0 stOnce "dev1" tdUps).2.2 5 tdUps
      "UPS tracking number 1Z999 saved" rfl⟩

end Webhook

namespace Sale

open Webhook (pyStrip)

/-- C7 counterexample: the claim says the 12-digit accessory barcode is
classified "as type Accessory", but the rule table spells the winning rule's
name `Acccesory`, so the returned `type` string is not `"Accessory"`. -/
theorem accessory_spelling_counterexample :
    (Sale.validate "634240123456").type = "Acccesory"
    ∧ (Sale.validate "634240123456").type ≠ "Accessory"
    ∧ (Sale.validate "634240123456").serial = some "634240123456" := by
  refine ⟨rfl, by decide, rfl⟩

/-- C7 (amended): every stripped barcode matching the first (`Acccesory`)
rule's pattern `^634240\d{6}$` — which also satisfies the generic 10-12
length catch-all — is classified by the first rule: `valid`, serial the
barcode itself, and type the first rule's name `Acccesory`, never the
catch-all, because rules are tried in declaration order and the first full
match is final. -/
theorem accessory_rule_first_match (s : String)
    (h : accessoryPattern (String.mk (pyStrip s.data)) = true) :
    validate s =
      ⟨true, some (String.mk (pyStrip s.data)), "Acccesory",
        String.mk (pyStrip s.data), none⟩ := by
  have hlen : (pyStrip s.data).length = 12 := by
    have h' := h
    unfold accessoryPattern at h'
    simp only [Bool.and_eq_true, beq_iff_eq] at h'
    simpa using h'.1.1
  unfold validate rules
  simp [validateFrom, hlen, h]

theorem accessory_rule_first_match_witness :
    validate "634240123456" =
      ⟨true, some "634240123456", "Acccesory", "634240123456", none⟩ :=
  accessory_rule_first_match "634240123456" (by decide)

end Sale

namespace Webhook

/-- A `json.loads` oracle for concrete runs whose probed inputs are all
unparseable (the call raises): it returns `none` everywhere. -/
def noJson : String → Option Json := fun _ => none

/-- Reduction of `check_payload` on a non-empty string payload whose cleaned
form contains `37040`: the classifier answers from the UPS branch, by the
parse outcome. -/
theorem check_payload_ups_reduction (parse : String → Option Json)
    (pend : List String) (s : String) (h0 : s ≠ "")
    (h1 : pyContains (clean_control_characters s.data) ("37040".data) = true) :
    check_payload parse pend (Json.str s) =
      match parse (String.mk (clean_control_characters s.data)) with
      | some j => (Status.ups_code, some j, "UPS code detected")
      | none => (Status.ups_code, none,
          "UPS code detected: " ++ String.mk (clean_control_characters s.data)) := by
  simp only [check_payload]
  rw [if_neg h0]
  simp only [h1, if_pos]

/-- C4 counterexample: for the non-empty payload `"\x01x37040"` (a control
character before `x37040`) the cleaned form is `x37040`, which `json.loads`
cannot parse, so the classifier answers with the CLEANED string in the
message — the raw payload string appears nowhere in it, contradicting the
claim's "raw string in the message". -/
theorem ups_message_raw_counterexample :
    check_payload noJson [] (Json.str "\x01x37040") =
      (Status.ups_code, none, "UPS code detected: x37040")
    ∧ "UPS code detected: x37040" ≠ "UPS code detected: " ++ "\x01x37040"
    ∧ pyContains ("UPS code detected: x37040".data) ("\x01x37040".data) = false := by
  refine ⟨rfl, by decide, by decide⟩

/-- C4 (amended): for every non-empty string payload whose cleaned form
contains the literal substring `37040`, `check_payload` returns `ups_code`
regardless of the surrounding content — with the parsed JSON body when the
cleaned string parses as JSON, and with a null body and the CLEANED string
in the message otherwise. -/
theorem ups_code_any_content (parse : String → Option Json) (pend : List String)
    (s : String) (h0 : s ≠ "")
    (h1 : pyContains (clean_control_characters s.data) ("37040".data) = true) :
    (check_payload parse pend (Json.str s)).1 = Status.ups_code
    ∧ (parse (String.mk (clean_control_characters s.data)) = none →
        check_payload parse pend (Json.str s) =
          (Status.ups_code, none,
            "UPS code detected: " ++ String.mk (clean_control_characters s.data)))
    ∧ (∀ j, parse (String.mk (clean_control_characters s.data)) = some j →
        check_payload parse pend (Json.str s) =
          (Status.ups_code, some j, "UPS code detected")) := by
  have hred := check_payload_ups_reduction parse pend s h0 h1
  refine ⟨?_, fun hn => ?_, fun j hj => ?_⟩
  · rw [hred]
    cases parse (String.mk (clean_control_characters s.data)) <;> rfl
  · rw [hred, hn]
  · rw [hred, hj]

theorem ups_code_any_content_witness :
    (check_payload noJson [] (Json.str "abc37040")).1 = Status.ups_code
    ∧ check_payload noJson [] (Json.str "abc37040") =
        (Status.ups_code, none, "UPS code detected: abc37040") :=
  ⟨(ups_code_any_content noJson [] "abc37040" (by decide) (by decide)).1,
    (ups_code_any_content noJson [] "abc37040" (by decide) (by decide)).2.1 rfl⟩

end Webhook

namespace Webhook

/-- Reduction of `check_payload` on a non-empty payload whose cleaned form
is 39 characters long, starts with `RC-` and contains no `37040`: the
classifier answers from the direct RC branch, by the shape test. -/
theorem check_payload_rc39_reduction (parse : String → Option Json)
    (pend : List String) (s : String) (h0 : s ≠ "")
    (h1 : (clean_control_characters s.data).length = 39)
    (h2 : pyStartsWith (clean_control_characters s.data) ("RC-".data) = true)
    (h3 : pyContains (clean_control_characters s.data) ("37040".data) = false) :
    check_payload parse pend (Json.str s) =
      if rcShapeOk (pySplit '-' (clean_control_characters s.data)) then
        (match parse (String.mk (clean_control_characters s.data)) with
          | some j => (Status.valid_rc_format, some j, "Valid RC-xxx-xxxxxx format")
          | none => (Status.valid_rc_format, none,
              "Valid RC-xxx-xxxxxx format but not JSON: " ++
                String.mk (clean_control_characters s.data)))
      else
        (Status.invalid_rc_format, none,
          "Invalid RC-xxx-xxxxxx format: incorrect parts " ++
            pyReprStrList (pySplit '-' (clean_control_characters s.data))) := by
  simp only [check_payload]
  rw [if_neg h0]
  simp [h1, h2, h3]

/-- C6: on a cleaned payload of exactly 39 characters beginning with `RC-`
(and not containing `37040`), the classifier decides inside the direct RC
branch and reaches no later step: if the hyphen decomposition test passes it
returns `valid_rc_format` (body the parse outcome, null when the string is
not parseable as JSON), and if the test fails it returns
`invalid_rc_format`. -/
theorem direct_rc39_branch (parse : String → Option Json) (pend : List String)
    (s : String) (h0 : s ≠ "")
    (h1 : (clean_control_characters s.data).length = 39)
    (h2 : pyStartsWith (clean_control_characters s.data) ("RC-".data) = true)
    (h3 : pyContains (clean_control_characters s.data) ("37040".data) = false) :
    (rcShapeOk (pySplit '-' (clean_control_characters s.data)) = true →
      check_payload parse pend (Json.str s) =
        (match parse (String.mk (clean_control_characters s.data)) with
          | some j => (Status.valid_rc_format, some j, "Valid RC-xxx-xxxxxx format")
          | none => (Status.valid_rc_format, none,
              "Valid RC-xxx-xxxxxx format but not JSON: " ++
                String.mk (clean_control_characters s.data))))
    ∧ (rcShapeOk (pySplit '-' (clean_control_characters s.data)) = false →
      check_payload parse pend (Json.str s) =
        (Status.invalid_rc_format, none,
          "Invalid RC-xxx-xxxxxx format: incorrect parts " ++
            pyReprStrList (pySplit '-' (clean_control_characters s.data)))) := by
  have hred := check_payload_rc39_reduction parse pend s h0 h1 h2 h3
  constructor
  · intro hs
    rw [hred, if_pos hs]
  · intro hs
    rw [hred, if_neg (by simp [hs])]

/-- Concrete 39-character payload starting with `RC-`. -/
def rc39 : String := "RC-aaaaaaaaaaaaaaaaaaaaaaaaaaaaaaaaaaaa"

theorem direct_rc39_branch_witness :
    check_payload noJson [] (Json.str rc39) =
      (Status.invalid_rc_format, none,
        "Invalid RC-xxx-xxxxxx format: incorrect parts " ++
          "['RC', 'aaaaaaaaaaaaaaaaaaaaaaaaaaaaaaaaaaaa']") :=
  ((direct_rc39_branch noJson [] rc39 (by decide) (by decide) (by decide)
    (by decide)).2 (by decide))

/-- C10 (implicit): the valid arm of the 39-character direct RC branch is
unreachable — a string that splits on `-` into exactly three parts of the
required shape has total length 13, never 39 — so every non-empty payload
whose cleaned form is 39 characters, starts with `RC-` and contains no
`37040` is classified `invalid_rc_format`. -/
theorem direct_rc39_always_invalid (parse : String → Option Json)
    (pend : List String) (s : String) (h0 : s ≠ "")
    (h1 : (clean_control_characters s.data).length = 39)
    (h2 : pyStartsWith (clean_control_characters s.data) ("RC-".data) = true)
    (h3 : pyContains (clean_control_characters s.data) ("37040".data) = false) :
    check_payload parse pend (Json.str s) =
      (Status.invalid_rc_format, none,
        "Invalid RC-xxx-xxxxxx format: incorrect parts " ++
          pyReprStrList (pySplit '-' (clean_control_characters s.data))) := by
  rw [check_payload_rc39_reduction parse pend s h0 h1 h2 h3,
    if_neg (by simp [rcShapeOk_len39_false _ h1 h2])]

/-- Concrete 39-character payload whose tail even looks like two dashed
groups; the shape test still fails (total length 39, not 13). -/
def rc39b : String := "RC-123-123456aaaaaaaaaaaaaaaaaaaaaaaaaa"

theorem direct_rc39_always_invalid_witness :
    check_payload noJson [] (Json.str rc39b) =
      (Status.invalid_rc_format, none,
        "Invalid RC-xxx-xxxxxx format: incorrect parts " ++
          "['RC', '123', '123456aaaaaaaaaaaaaaaaaaaaaaaaaa']") :=
  direct_rc39_always_invalid noJson [] rc39b (by decide) (by decide) (by decide)
    (by decide)

/-- Reduction of `check_payload` on a payload that reaches the JSON-object
stage (no `37040` in the cleaned form, not the 39-character direct form,
parses to a dict) whose string `msg` field contains no `37040`, is exactly
13 characters long and starts with `RC-`: the classifier answers from the
msg RC branch, by the shape test. -/
theorem check_payload_msgrc_reduction (parse : String → Option Json)
    (pend : List String) (s : String) (fields : List (String × Json))
    (m : String) (h0 : s ≠ "")
    (h1 : pyContains (clean_control_characters s.data) ("37040".data) = false)
    (h2 : ((clean_control_characters s.data).length == 39 &&
        pyStartsWith (clean_control_characters s.data) ("RC-".data)) = false)
    (h3 : parse (String.mk (clean_control_characters s.data)) =
        some (Json.obj fields))
    (h4 : msgStringOf fields = some m)
    (h5 : pyContains m.data ("37040".data) = false)
    (h6 : m.length = 13)
    (h7 : pyStartsWith m.data ("RC-".data) = true) :
    check_payload parse pend (Json.str s) =
      if rcShapeOk (pySplit '-' m.data) then
        (Status.valid_rc_format, some (Json.obj fields),
          "Valid RC-xxx-xxxxxx format in msg")
      else
        (Status.incorrect_format, none,
          "Invalid RC-xxx-xxxxxx format in msg: incorrect parts " ++
            pyReprStrList (pySplit '-' m.data)) := by
  simp only [check_payload]
  rw [if_neg h0]
  simp [h1, h2, h3, h4, h5, h6, h7]

/-- C5: a JSON-object payload (cleaned form without `37040` and not the
39-character direct form) whose `msg` is exactly 13 characters, starts with
`RC-` and decomposes into three hyphen-separated parts with alphanumeric
second and third parts of lengths 3 and 6 classifies as `valid_rc_format`
with the parsed body; if the 13-character `RC-` prefix test passes but the
decomposition fails, it classifies as `incorrect_format` (not
`invalid_rc_format`). -/
theorem msg_rc_format_classification (parse : String → Option Json)
    (pend : List String) (s : String) (fields : List (String × Json))
    (m : String) (h0 : s ≠ "")
    (h1 : pyContains (clean_control_characters s.data) ("37040".data) = false)
    (h2 : ((clean_control_characters s.data).length == 39 &&
        pyStartsWith (clean_control_characters s.data) ("RC-".data)) = false)
    (h3 : parse (String.mk (clean_control_characters s.data)) =
        some (Json.obj fields))
    (h4 : msgStringOf fields = some m)
    (h5 : pyContains m.data ("37040".data) = false)
    (h6 : m.length = 13)
    (h7 : pyStartsWith m.data ("RC-".data) = true) :
    (rcShapeOk (pySplit '-' m.data) = true →
      check_payload parse pend (Json.str s) =
        (Status.valid_rc_format, some (Json.obj fields),
          "Valid RC-xxx-xxxxxx format in msg"))
    ∧ (rcShapeOk (pySplit '-' m.data) = false →
      check_payload parse pend (Json.str s) =
        (Status.incorrect_format, none,
          "Invalid RC-xxx-xxxxxx format in msg: incorrect parts " ++
            pyReprStrList (pySplit '-' m.data))) := by
  have hred := check_payload_msgrc_reduction parse pend s fields m
    h0 h1 h2 h3 h4 h5 h6 h7
  constructor
  · intro hs
    rw [hred, if_pos hs]
  · intro hs
    rw [hred, if_neg (by simp [hs])]

/-- The spec's example payload `{"msg":"RC-102-123456","id":"dev1"}`. -/
def rcMsgPayload : String :=
  "\x7b\"msg\":\"RC-102-123456\",\"id\":\"dev1\"\x7d"

/-- Models `json.loads` on the example payload: the decoded dict on the probed
input, failure elsewhere. -/
def rcMsgLoads : String → Option Json := fun t =>
  if t = rcMsgPayload then
    some (Json.obj [("msg", Json.str "RC-102-123456"), ("id", Json.str "dev1")])
  else
    none

theorem msg_rc_format_classification_witness :
    check_payload rcMsgLoads [] (Json.str rcMsgPayload) =
      (Status.valid_rc_format,
        some (Json.obj [("msg", Json.str "RC-102-123456"), ("id", Json.str "dev1")]),
        "Valid RC-xxx-xxxxxx format in msg") :=
  (msg_rc_format_classification rcMsgLoads [] rcMsgPayload
    [("msg", Json.str "RC-102-123456"), ("id", Json.str "dev1")] "RC-102-123456"
    (by decide) (by decide) (by decide) rfl rfl (by decide) (by decide)
    (by decide)).1 (by decide)

end Webhook

namespace Webhook

/-- A request environment whose `json.loads` raises on every probed input
and whose persistence writes report failure; time 0. -/
def envNoJson : Env := ⟨noJson, fun _ => false, fun _ => false, 0, "1970-01-01T00:00:00"⟩

/-- C3 counterexample: the topic `production` IS a prefix of the allowed
topic `production/ready`, so the claim calls it authorized — but the code
tests the opposite direction (`topic.startswith(allowed)`), rejects it, and
answers the unauthorized-topic 403. -/
theorem topic_prefix_direction_counterexample :
    pyStartsWith ("production/ready".data) ("production".data) = true
    ∧ topic_allowed "production" = false
    ∧ (handle_device_scan envNoJson ⟨[]⟩
        (Json.obj [("topic", Json.str "production"), ("payload", Json.str "x")])).1 =
        unauthorizedResponse "production" := by
  refine ⟨by decide, by decide, ?_⟩
  rw [handle_unauthorized envNoJson ⟨[]⟩
    [("topic", Json.str "production"), ("payload", Json.str "x")]
    "production" rfl (by decide)]

/-- C3 (amended): a webhook request is authorized exactly when one of the
configured allowed topics (`production/ready`, `sale/ready`) equals or is a
prefix of its topic; every other topic is rejected with the 403 response
that reports the disallowed topic (and the allowed list). -/
theorem topic_authorization_iff (env : Env) (st : TrackingState)
    (dfields : List (String × Json)) (topic : String)
    (h : topicStringOf dfields = some topic) :
    ((handle_device_scan env st (Json.obj dfields)).1.code = 403 ↔
      (ALLOWED_TOPICS.any (fun a => a.data.isPrefixOf topic.data)) = false)
    ∧ ((ALLOWED_TOPICS.any (fun a => a.data.isPrefixOf topic.data)) = false →
        handle_device_scan env st (Json.obj dfields) =
          (unauthorizedResponse topic, st, [])) := by
  have hiff : topic_allowed topic =
      ALLOWED_TOPICS.any (fun a => a.data.isPrefixOf topic.data) := by
    unfold topic_allowed pyStartsWith
    congr 1
    funext a
    by_cases heq : topic = a
    · subst heq
      simp [ List.isPrefixOf_iff_prefix]
    · simp [heq]
  constructor
  · constructor
    · intro h403
      cases hta : topic_allowed topic with
      | false => rw [← hiff, hta]
      | true =>
        exfalso
        rw [handle_authorized env st dfields topic h hta] at h403
        rcases dispatchStatus_code env (cleanup_expired env.now st) topic
          ((List.lookup "payload" dfields).getD (Json.str "\x7b\x7d"))
          (check_payload env.parse
            ((cleanup_expired env.now st).pending_orders.map Prod.fst)
            ((List.lookup "payload" dfields).getD (Json.str "\x7b\x7d"))) with
          hc | hc | hc <;> omega
    · intro hfalse
      rw [handle_unauthorized env st dfields topic h (by rw [hiff, hfalse])]
      rfl
  · intro hfalse
    exact handle_unauthorized env st dfields topic h (by rw [hiff, hfalse])

theorem topic_authorization_iff_witness :
    ((handle_device_scan envNoJson ⟨[]⟩
        (Json.obj [("topic", Json.str "random/topic"), ("payload", Json.str "x")])).1.code
        = 403)
    ∧ handle_device_scan envNoJson ⟨[]⟩
        (Json.obj [("topic", Json.str "random/topic"), ("payload", Json.str "x")]) =
        (unauthorizedResponse "random/topic", ⟨[]⟩, []) :=
  ⟨((topic_authorization_iff envNoJson ⟨[]⟩
      [("topic", Json.str "random/topic"), ("payload", Json.str "x")]
      "random/topic" rfl).1).mpr (by decide),
    (topic_authorization_iff envNoJson ⟨[]⟩
      [("topic", Json.str "random/topic"), ("payload", Json.str "x")]
      "random/topic" rfl).2 (by decide)⟩

/-- C8: a request with an unauthorized topic is rejected with the 403
response before anything else happens — the pending registry is exactly
unchanged (not even swept, and nothing registered or resolved) and no
persistence write is invoked. -/
theorem unauthorized_rejected_before_effects (env : Env) (st : TrackingState)
    (dfields : List (String × Json)) (topic : String)
    (h : topicStringOf dfields = some topic)
    (h2 : topic_allowed topic = false) :
    handle_device_scan env st (Json.obj dfields) =
      (unauthorizedResponse topic, st, []) :=
  handle_unauthorized env st dfields topic h h2

/-- A registry holding an entry that is already past the 10-second timeout
at time 20000000 (20 s), so an authorized request's sweep would drop it. -/
def stStale : TrackingState := ⟨[("devX", ⟨"ups_code", 0, Json.null⟩)]⟩

theorem unauthorized_rejected_before_effects_witness :
    handle_device_scan ⟨noJson, fun _ => false, fun _ => false, 20000000, "t"⟩
        stStale
        (Json.obj [("topic", Json.str "random/topic"),
          ("payload", Json.str "37040")]) =
      (unauthorizedResponse "random/topic", stStale, []) :=
  unauthorized_rejected_before_effects
    ⟨noJson, fun _ => false, fun _ => false, 20000000, "t"⟩ stStale
    [("topic", Json.str "random/topic"), ("payload", Json.str "37040")]
    "random/topic" rfl (by decide)

/-- C9: every inbound request body produces an HTTP response — the dispatch
is total and each branch, malformed input included, answers one of the
modelled status codes; Python-level exceptions are caught by the endpoint's
own handlers (modelled as the 400/500 branches), so no fault reaches the
transport layer. -/
theorem every_request_gets_response (env : Env) (st : TrackingState)
    (data : Json) :
    (handle_device_scan env st data).1.code = 200 ∨
      (handle_device_scan env st data).1.code = 400 ∨
      (handle_device_scan env st data).1.code = 403 ∨
      (handle_device_scan env st data).1.code = 500 := by
  cases data with
  | obj dfields =>
    cases h : topicStringOf dfields with
    | none => simp [handle_device_scan, h, serverError]
    | some topic =>
      cases hta : topic_allowed topic with
      | false =>
        rw [handle_unauthorized env st dfields topic h hta]
        simp [unauthorizedResponse]
      | true =>
        rw [handle_authorized env st dfields topic h hta]
        rcases dispatchStatus_code env (cleanup_expired env.now st) topic
          ((List.lookup "payload" dfields).getD (Json.str "\x7b\x7d"))
          (check_payload env.parse
            ((cleanup_expired env.now st).pending_orders.map Prod.fst)
            ((List.lookup "payload" dfields).getD (Json.str "\x7b\x7d"))) with
          hc | hc | hc
        · exact Or.inl hc
        · exact Or.inr (Or.inl hc)
        · exact Or.inr (Or.inr (Or.inr hc))
  | null => simp [handle_device_scan, serverError]
  | bool b => simp [handle_device_scan, serverError]
  | num n => simp [handle_device_scan, serverError]
  | str s => simp [handle_device_scan, serverError]
  | arr l => simp [handle_device_scan, serverError]

end Webhook
